import Mathlib

/-!
# Verification of the SQL chatbot's deterministic core

Shallow embedding of the deterministic (non-LLM) logic of the repository:
the response extractor (`extract_sql_condition`), the SQL assembler
(the clause-construction part of `SQLQueryPipeline.step4_build_sql`), the
safety/syntax validators (`validate_sql_syntax`,
`AdvancedSQLPipeline._is_safe_sql`, `SimpleSQLPipeline._is_safe_sql`) and the
pipeline-level response shaping of the three `process_query` entry points.

Python strings are modeled as `List Char` (ASCII model: `str.upper` is
`Char.toUpper`, `str.strip` removes the six ASCII whitespace characters).
The language-model oracle and the database are external collaborators and are
modeled as explicit inputs: stage outcomes as `Except` values and the database
as a call-indexed oracle `Nat → Except Str (List Row)` so that the number of
database calls is observable.
-/

namespace SQLChatbot

abbrev Str := List Char

/-! ## Python string primitives -/

/-- The six ASCII whitespace characters stripped by Python's `str.strip` and
split on by `str.split`. -/
def isPySpace (c : Char) : Bool :=
  c = ' ' || c = '\t' || c = '\n' || c = '\r' || c = '\x0b' || c = '\x0c'

/-- Python `str.upper` (ASCII model). -/
def pyUpper (s : Str) : Str := s.map Char.toUpper

/-- Python `str.strip` (ASCII model). -/
def pyStrip (s : Str) : Str :=
  ((s.dropWhile isPySpace).reverse.dropWhile isPySpace).reverse

/-- Python `str.startswith`. -/
def startsWithTok : Str → Str → Bool
  | [], _ => true
  | _ :: _, [] => false
  | p :: ps, c :: cs => p == c && startsWithTok ps cs

/-- Python's substring test `pat in s`. -/
def containsTok (pat : Str) : Str → Bool
  | [] => startsWithTok pat []
  | c :: cs => startsWithTok pat (c :: cs) || containsTok pat cs

/-- Python `str.split()` (split on whitespace runs, no empty fields). -/
def splitWSAux : Str → Str → List Str
  | cur, [] => if cur.isEmpty then [] else [cur.reverse]
  | cur, c :: cs =>
    if isPySpace c then
      if cur.isEmpty then splitWSAux [] cs else cur.reverse :: splitWSAux [] cs
    else splitWSAux (c :: cur) cs

def splitWS (s : Str) : List Str := splitWSAux [] s

/-- Line-break characters recognized by Python `str.splitlines` (ASCII model). -/
def isLineBreak (c : Char) : Bool :=
  c = '\n' || c = '\r' || c = '\x0b' || c = '\x0c'

/-- Python `str.splitlines` (ASCII model; `\r\n` counts as one break, no
trailing empty line). -/
def splitlinesAux : Str → Str → List Str
  | cur, [] => if cur.isEmpty then [] else [cur.reverse]
  | cur, '\r' :: '\n' :: rest => cur.reverse :: splitlinesAux [] rest
  | cur, c :: rest =>
    if isLineBreak c then cur.reverse :: splitlinesAux [] rest
    else splitlinesAux (c :: cur) rest

def splitlines (s : Str) : List Str := splitlinesAux [] s

/-! ## Safety / syntax validators -/

/-- Diagnostic produced by `validate_sql_syntax` for a denylisted keyword. -/
def dangerMsg (kw : String) : Str :=
  ("Potentially dangerous SQL operation detected: " ++ kw).data

/-- Embeds `query_pipeline.validate_sql_syntax` (lines 30-51): required clauses,
parenthesis balance, the WHERE case heuristic, then the keyword denylist,
returning the pass flag and the diagnostic, in source order. -/
def validate_sql_syntax (sql : Str) : Bool × Str :=
  if containsTok "SELECT".data (pyUpper sql) = false then
    (false, "Missing required clause: SELECT".data)
  else if containsTok "FROM".data (pyUpper sql) = false then
    (false, "Missing required clause: FROM".data)
  else if sql.count '(' ≠ sql.count ')' then
    (false, "Mismatched parentheses".data)
  else if containsTok "WHERE".data (pyUpper sql) = true ∧
      containsTok "WHERE".data sql = false then
    (false, "Invalid WHERE clause".data)
  else if containsTok "DROP".data (pyUpper sql) = true then (false, dangerMsg "DROP")
  else if containsTok "DELETE".data (pyUpper sql) = true then (false, dangerMsg "DELETE")
  else if containsTok "TRUNCATE".data (pyUpper sql) = true then (false, dangerMsg "TRUNCATE")
  else if containsTok "ALTER".data (pyUpper sql) = true then (false, dangerMsg "ALTER")
  else if containsTok "CREATE".data (pyUpper sql) = true then (false, dangerMsg "CREATE")
  else if containsTok "INSERT".data (pyUpper sql) = true then (false, dangerMsg "INSERT")
  else if containsTok "UPDATE".data (pyUpper sql) = true then (false, dangerMsg "UPDATE")
  else (true, "SQL syntax appears valid".data)

/-- Embeds `AdvancedSQLPipeline._is_safe_sql` (advanced_pipeline.py lines 280-304):
SELECT/WITH start on the stripped uppercased string, keyword denylist on the
same, then the semicolon guard on the raw string. -/
def adv_is_safe_sql (sql : Str) : Bool :=
  if (startsWithTok "SELECT".data (pyStrip (pyUpper sql)) ||
      startsWithTok "WITH".data (pyStrip (pyUpper sql))) = false then false
  else if containsTok "DROP".data (pyStrip (pyUpper sql)) = true then false
  else if containsTok "DELETE".data (pyStrip (pyUpper sql)) = true then false
  else if containsTok "UPDATE".data (pyStrip (pyUpper sql)) = true then false
  else if containsTok "INSERT".data (pyStrip (pyUpper sql)) = true then false
  else if containsTok "CREATE".data (pyStrip (pyUpper sql)) = true then false
  else if containsTok "ALTER".data (pyStrip (pyUpper sql)) = true then false
  else if containsTok "TRUNCATE".data (pyStrip (pyUpper sql)) = true then false
  else if containsTok "EXEC".data (pyStrip (pyUpper sql)) = true then false
  else if containsTok "EXECUTE".data (pyStrip (pyUpper sql)) = true then false
  else if containsTok ";".data sql = true then false
  else true

/-! ## SQL assembler (`SQLQueryPipeline.step4_build_sql`, clause construction) -/

/-- The schema snapshot, as the Assembler reads it: a total map from table
name to its ordered column list (`self.schema[table]['columns']`; per the
snapshot invariant every table the Assembler receives is present in the
snapshot). -/
abbrev Schema := Str → List Str

/-- One inferred join edge, the dictionary built by `step2_analyze_joins`. -/
structure JoinEdge where
  from_table : Str
  to_table : Str
  from_column : Str
  to_column : Str

/-- Python `' '.join` over already-built clause strings. -/
def joinSp : List Str → Str
  | [] => []
  | [s] => s
  | s :: t :: rest => s ++ ' ' :: joinSp (t :: rest)

/-- Python `', '.join`. -/
def commaJoin : List Str → Str
  | [] => []
  | [s] => s
  | s :: t :: rest => s ++ ',' :: ' ' :: commaJoin (t :: rest)

/-- The column-qualification loop of `step4_build_sql` (lines 202-213):
first table in list order whose snapshot columns contain the column wins;
a column found in no table passes through unqualified. -/
def prefixColumn (schema : Schema) (tables : List Str) (col : Str) : Str :=
  match tables with
  | [] => col
  | t :: ts =>
    if (schema t).contains col then t ++ '.' :: col
    else prefixColumn schema ts col

/-- Modelled from the spec: "qualify each column with the first table in the
list whose schema contains that column name (first match wins, ties broken by
table-list order); unqualified pass-through for columns not found in any
table". Stated with `List.find?` to compare against `prefixColumn`. -/
def qualifySpec (schema : Schema) (tables : List Str) (col : Str) : Str :=
  match tables.find? (fun t => (schema t).contains col) with
  | some t => t ++ '.' :: col
  | none => col

/-- SELECT clause of `step4_build_sql` (lines 201-216). -/
def select_clause (schema : Schema) (tables : List Str) (columns : List Str) : Str :=
  match columns with
  | [] => "SELECT *".data
  | _ => "SELECT ".data ++ commaJoin (columns.map (prefixColumn schema tables))

/-- One JOIN clause of `step4_build_sql` (line 225). -/
def join_clause (j : JoinEdge) : Str :=
  "JOIN ".data ++ j.to_table ++ " ON ".data ++ j.from_table ++ '.' :: j.from_column ++
    " = ".data ++ j.to_table ++ '.' :: j.to_column

/-- Clause construction of `step4_build_sql` (lines 197-237): SELECT clause,
FROM on the first table, one JOIN clause per edge in order, optional WHERE,
joined with single spaces; `none` models the `ValueError` raised on an empty
table list. The WHERE fragment argument is the condition already extracted
from the oracle response. -/
def step4_assemble (schema : Schema) (tables : List Str) (joins : List JoinEdge)
    (columns : List Str) (whereClause : Str) : Option Str :=
  match tables with
  | [] => none
  | t0 :: _ =>
    some (joinSp ([select_clause schema tables columns, "FROM ".data ++ t0] ++
      joins.map join_clause ++
      (if whereClause = [] then [] else ["WHERE ".data ++ whereClause])))

/-! ## Response extractor (`extract_sql_condition`, fragment mode)

The first branch of `extract_sql_condition` is
`re.search(r'([\w\.]+\s+(LIKE|=|>|<|<=|>=|!=)\s+\'?[^\n\r\']+\'?)', _, re.IGNORECASE)`.
`firstMatch` below implements its search: try every start position from the
left; at a position, the `[\w\.]+` and first `\s+` runs are forced (their
character classes are disjoint from what must follow), the operator
alternatives are tried in pattern order, and the second `\s+` backtracks from
longest to shortest because `[^\n\r\']+` may itself consume whitespace. -/

/-- Word characters or a literal dot (ASCII model of the class `[\w\.]`). -/
def isWordDot (c : Char) : Bool := c.isAlphanum || c = '_' || c = '.'

/-- A character admitted by `[^\n\r\']`. -/
def bodyChar (c : Char) : Bool := !(c == '\n' || c == '\r' || c == '\'')

/-- Greedy `\'? [^\n\r\']+ \'?`: the consumed text, or `none`. -/
def quoteBody (l : Str) : Option Str :=
  match l with
  | '\'' :: rest =>
    (match rest.span bodyChar with
     | (body, r) =>
       if body.isEmpty then none
       else match r with
         | '\'' :: _ => some ('\'' :: (body ++ ['\'']))
         | _ => some ('\'' :: body))
  | _ =>
    match l.span bodyChar with
    | (body, r) =>
      if body.isEmpty then none
      else match r with
        | '\'' :: _ => some (body ++ ['\''])
        | _ => some body

/-- Whitespace `\s+` then the quote/body tail, longest whitespace run first. -/
def spQuoteBody : Str → Option Str
  | [] => none
  | c :: rest =>
    if isPySpace c then
      match spQuoteBody rest with
      | some t => some (c :: t)
      | none =>
        match quoteBody rest with
        | some b => some (c :: b)
        | none => none
    else none

/-- Case-insensitive literal-prefix strip (`re.IGNORECASE`); the pattern is
given uppercased. -/
def stripPrefixCI : Str → Str → Option Str
  | [], l => some l
  | _ :: _, [] => none
  | o :: os, c :: cs => if c.toUpper == o then stripPrefixCI os cs else none

/-- The operator alternatives in pattern order. -/
def opAlternatives : List Str :=
  ["LIKE".data, "=".data, ">".data, "<".data, "<=".data, ">=".data, "!=".data]

def tryOpsAux : List Str → Str → Option Str
  | [], _ => none
  | op :: ops, l =>
    match stripPrefixCI op l with
    | some rest =>
      (match spQuoteBody rest with
       | some t => some (l.take op.length ++ t)
       | none => tryOpsAux ops l)
    | none => tryOpsAux ops l

/-- Attempt the condition regex anchored at the current position. -/
def matchAt (l : Str) : Option Str :=
  match l.span isWordDot with
  | (w, r1) =>
    if w.isEmpty then none
    else
      match r1.span isPySpace with
      | (sp, r2) =>
        if sp.isEmpty then none
        else
          match tryOpsAux opAlternatives r2 with
          | some t => some (w ++ sp ++ t)
          | none => none

/-- Leftmost search of the condition regex (`re.search`). -/
def firstMatch : Str → Option Str
  | [] => none
  | c :: cs =>
    match matchAt (c :: cs) with
    | some m => some m
    | none => firstMatch cs

/-- The operator list of the line-by-line scan (case-sensitive `in` checks). -/
def lineOps : List Str :=
  ["LIKE".data, "=".data, ">".data, "<".data, "!=".data]

def lineHasOp (l : Str) : Bool := lineOps.any (fun op => containsTok op l)

/-- The `for line in splitlines()` loop: first stripped line containing a
comparison operator. -/
def findOpLine : List Str → Option Str
  | [] => none
  | ln :: rest =>
    if lineHasOp (pyStrip ln) then some (pyStrip ln) else findOpLine rest

/-- Embeds `query_pipeline.extract_sql_condition` (lines 9-27): regex search, then
line scan, then the short-response fallback. `replace("'", "'")` in the
source replaces a quote with itself and is omitted; `replace('"', '')` is the
double-quote filter. -/
def extract_sql_condition (s : Str) : Str :=
  match firstMatch s with
  | some m => m
  | none =>
    match findOpLine (splitlines s) with
    | some ln => ln.filter (fun c => c ≠ '"')
    | none =>
      if (splitWS s).length < 10 then (pyStrip s).filter (fun c => c ≠ '"')
      else []

/-! ## Simple pipeline safety check (`SimpleSQLPipeline._is_safe_sql`) -/

/-- Python `' '.join(sql.split())` — whitespace normalization. -/
def sqlClean (sql : Str) : Str := joinSp (splitWS sql)

/-- The single-quote count of `_is_safe_sql`: a quote at position 0 or not
preceded by a backslash. -/
def countQuotes : Option Char → Str → Nat
  | _, [] => 0
  | prev, c :: rest =>
    (if c = '\'' ∧ prev ≠ some '\\' then 1 else 0) + countQuotes (some c) rest

/-- Embeds `SimpleSQLPipeline._is_safe_sql` (simple_pipeline.py lines 296-350):
emptiness, SELECT near the start, keyword denylist, quote balance, FROM
presence, parenthesis balance, in source order. -/
def simple_is_safe_sql (sql : Str) : Bool :=
  if sql.isEmpty || (pyStrip sql).isEmpty then false
  else
    let u := pyStrip (pyUpper (sqlClean sql))
    if !startsWithTok "SELECT".data u && !containsTok "SELECT".data (u.take 20) then false
    else if containsTok "DROP".data u then false
    else if containsTok "DELETE".data u then false
    else if containsTok "UPDATE".data u then false
    else if containsTok "INSERT".data u then false
    else if containsTok "ALTER".data u then false
    else if containsTok "CREATE".data u then false
    else if containsTok "TRUNCATE".data u then false
    else if containsTok "EXEC".data u then false
    else if countQuotes none sql % 2 ≠ 0 then false
    else if !containsTok "FROM".data u then false
    else if u.count '(' ≠ u.count ')' then false
    else true

/-! ## `AdvancedSQLPipeline._extract_main_tables` -/

def isWordChar (c : Char) : Bool := c.isAlphanum || c = '_'

/-- After a matched keyword: `\s+` then the captured `\w+`; returns the word
and the total number of characters the match consumed. -/
def wordCapture (rest : Str) (consumed : Nat) : Option (Str × Nat) :=
  match rest.span isPySpace with
  | (sp, r2) =>
    if sp.isEmpty then none
    else
      match r2.span isWordChar with
      | (w, _) =>
        if w.isEmpty then none
        else some (w, consumed + sp.length + w.length)

def kwTableAfter (kw : Str) (l : Str) : Option (Str × Nat) :=
  match stripPrefixCI kw l with
  | some rest => wordCapture rest kw.length
  | none => none

def kwPairAfter (kw1 kw2 : Str) (l : Str) : Option (Str × Nat) :=
  match stripPrefixCI kw1 l with
  | some r1 =>
    (match r1.span isPySpace with
     | (sp, r2) =>
       if sp.isEmpty then none
       else
         match stripPrefixCI kw2 r2 with
         | some rest => wordCapture rest (kw1.length + sp.length + kw2.length)
         | none => none)
  | none => none

/-- One alternative of `(?:FROM|JOIN|LEFT\s+JOIN|RIGHT\s+JOIN|INNER\s+JOIN|FULL\s+JOIN)\s+(\w+)`
anchored at the current position, alternatives in pattern order. -/
def kwTable (l : Str) : Option (Str × Nat) :=
  match kwTableAfter "FROM".data l with
  | some r => some r
  | none =>
  match kwTableAfter "JOIN".data l with
  | some r => some r
  | none =>
  match kwPairAfter "LEFT".data "JOIN".data l with
  | some r => some r
  | none =>
  match kwPairAfter "RIGHT".data "JOIN".data l with
  | some r => some r
  | none =>
  match kwPairAfter "INNER".data "JOIN".data l with
  | some r => some r
  | none => kwPairAfter "FULL".data "JOIN".data l

/-- The `re.findall` scan: non-overlapping matches left to right. -/
def mainTablesAux : Str → List Str
  | [] => []
  | c :: cs =>
    match kwTable (c :: cs) with
    | some (tbl, k) => tbl :: mainTablesAux (cs.drop (k - 1))
    | none => mainTablesAux cs
termination_by s => s.length
decreasing_by
  · simp only [List.length_cons]
    have := List.length_drop (k - 1) cs
    omega
  · simp

/-- Embeds `AdvancedSQLPipeline._extract_main_tables` (lines 328-335): FROM/JOIN
table names, deduplicated. Python iterates `list(set(tables))` in an
environment-defined order; modeled as first-occurrence deduplication. -/
def extract_main_tables (sql : Str) : List Str := (mainTablesAux sql).eraseDups

/-! ## Pipeline response shaping

The language-model calls and the database are external collaborators. Stage
outcomes enter as `Except` values (`.error` models an exception raised inside
the stage); the database is a call-indexed oracle so the number of calls the
Executor makes is observable in the result. -/

abbrev Row := List (Str × Str)
abbrev DbOracle := Nat → Except Str (List Row)

/-- The dictionary `SQLQueryPipeline.process_query` returns; `error` is
`none` when the `'error'` key is absent. -/
structure QPResponse where
  tables : List Str
  joins : List JoinEdge
  columns : List Str
  sql_query : Str
  results : List Row
  error : Option Str
  validation_passed : Bool

/-- Embeds `SQLQueryPipeline.step5_execute_query` (lines 316-332): call `calls` is
the `SET SESSION MAX_EXECUTION_TIME` statement, call `calls + 1` the query;
any error is swallowed and an empty row list returned. Each statement is
issued exactly once — the call counter in the result exposes that no retry
happens. -/
def step5_execute_query (db : DbOracle) (calls : Nat) (_sql : Str) :
    List Row × Nat :=
  match db calls with
  | .error _ => ([], calls + 1)
  | .ok _ =>
    match db (calls + 1) with
    | .error _ => ([], calls + 2)
    | .ok rows => (rows, calls + 2)

/-- Embeds `SQLQueryPipeline.process_query` (lines 334-374): the try-block with
steps 1-4 abstracted into one stage outcome, step 5 executed on success, and
the except-branch producing the failure record. -/
def process_query (stages : Except Str (List Str × List JoinEdge × List Str × Str))
    (db : DbOracle) : QPResponse × Nat :=
  match stages with
  | .error e =>
    ({ tables := [], joins := [], columns := [], sql_query := [], results := [],
       error := some e, validation_passed := false }, 0)
  | .ok (tables, joins, columns, sql) =>
    ({ tables := tables, joins := joins, columns := columns, sql_query := sql,
       results := (step5_execute_query db 0 sql).1, error := none,
       validation_passed := true }, (step5_execute_query db 0 sql).2)

/-- The dictionary the advanced pipeline returns. -/
structure AdvResponse where
  success : Bool
  user_question : Str
  target_table : Str
  sql_query : Str
  results : List Row
  result_count : Nat
  error : Option Str

/-- Embeds `AdvancedSQLPipeline._error_response` (lines 360-370). -/
def adv_error_response (msg : Str) : AdvResponse :=
  { success := false, user_question := [], target_table := [], sql_query := [],
    results := [], result_count := 0, error := some msg }

/-- Embeds `AdvancedSQLPipeline._execute_query` (lines 306-326): one database call;
an error is re-raised to the caller. -/
def adv_execute_query (db : DbOracle) (calls : Nat) (_sql : Str) :
    Except Str (List Row) × Nat := (db calls, calls + 1)

/-- Embeds `AdvancedSQLPipeline.process_query` (lines 92-131): SQL generation
abstracted into an `Except` outcome, safety check, execution, response
shaping; every exception lands in `_error_response`. -/
def adv_process_query (q : Str) (gen : Except Str Str) (db : DbOracle) :
    AdvResponse × Nat :=
  match gen with
  | .error e => (adv_error_response e, 0)
  | .ok sql =>
    if adv_is_safe_sql sql then
      match (adv_execute_query db 0 sql).1 with
      | .error e => (adv_error_response e, (adv_execute_query db 0 sql).2)
      | .ok results =>
        ({ success := true, user_question := q,
           target_table := if (extract_main_tables sql).isEmpty
             then "Multiple tables".data else commaJoin (extract_main_tables sql),
           sql_query := sql, results := results,
           result_count := results.length, error := none },
         (adv_execute_query db 0 sql).2)
    else (adv_error_response "Generated SQL failed safety check".data, 0)

/-- The dictionary the simple pipeline returns; keys absent from the error
record are `none`. -/
structure SimpleResponse where
  success : Bool
  user_question : Option Str
  target_table : Option Str
  sql_query : Option Str
  results : List Row
  result_count : Nat
  error : Option Str

/-- Embeds `SimpleSQLPipeline._error_response` (lines 384-391). -/
def simple_error_response (msg : Str) : SimpleResponse :=
  { success := false, user_question := none, target_table := none,
    sql_query := none, results := [], result_count := 0, error := some msg }

/-- Embeds `SimpleSQLPipeline._execute_query` (lines 352-382): call `calls` is the
`EXPLAIN` pre-check (its failure is re-raised with the `SQL syntax error:`
prefix), call `calls + 1` the query; errors are re-raised to the caller. -/
def simple_execute_query (db : DbOracle) (calls : Nat) (_sql : Str) :
    Except Str (List Row) × Nat :=
  match db calls with
  | .error e => (.error ("SQL syntax error: ".data ++ e), calls + 1)
  | .ok _ =>
    match db (calls + 1) with
    | .error e => (.error e, calls + 2)
    | .ok rows => (.ok rows, calls + 2)

/-- Embeds `SimpleSQLPipeline.process_query` (lines 56-100): table identification
and SQL generation abstracted into outcomes, safety check, execution,
response shaping; every exception lands in `_error_response`. -/
def simple_process_query (q : Str) (tid : Except Str (Option Str))
    (gen : Except Str Str) (db : DbOracle) : SimpleResponse × Nat :=
  match tid with
  | .error e => (simple_error_response e, 0)
  | .ok none =>
    (simple_error_response
      "Could not identify which table you're asking about".data, 0)
  | .ok (some t) =>
    match gen with
    | .error e => (simple_error_response e, 0)
    | .ok sql =>
      if simple_is_safe_sql sql then
        match (simple_execute_query db 0 sql).1 with
        | .error e => (simple_error_response e, (simple_execute_query db 0 sql).2)
        | .ok results =>
          ({ success := true, user_question := some q, target_table := some t,
             sql_query := some sql, results := results,
             result_count := results.length, error := none },
           (simple_execute_query db 0 sql).2)
      else (simple_error_response "Generated SQL failed safety check".data, 0)

/-! ## Lemmas about the string primitives -/

theorem startsWithTok_iff : ∀ (pat l : Str),
    startsWithTok pat l = true ↔ ∃ t, l = pat ++ t
  | [], l => by simp [startsWithTok]
  | _ :: _, [] => by simp [startsWithTok]
  | p :: ps, c :: cs => by
    simp only [startsWithTok, Bool.and_eq_true, beq_iff_eq, List.cons_append,
      List.cons.injEq]
    rw [startsWithTok_iff ps cs]
    constructor
    · rintro ⟨rfl, t, rfl⟩
      exact ⟨t, rfl, rfl⟩
    · rintro ⟨t, rfl, rfl⟩
      exact ⟨rfl, t, rfl⟩

theorem containsTok_iff : ∀ (pat l : Str),
    containsTok pat l = true ↔ ∃ a b, l = a ++ (pat ++ b)
  | pat, [] => by
    simp only [containsTok]
    rw [startsWithTok_iff]
    constructor
    · rintro ⟨t, h⟩
      exact ⟨[], t, by simpa using h⟩
    · rintro ⟨a, b, h⟩
      rcases List.append_eq_nil.mp h.symm with ⟨rfl, h2⟩
      exact ⟨b, by simpa using h2⟩
  | pat, c :: cs => by
    simp only [containsTok, Bool.or_eq_true]
    rw [startsWithTok_iff, containsTok_iff pat cs]
    constructor
    · rintro (⟨t, h⟩ | ⟨a, b, h⟩)
      · exact ⟨[], t, by simpa using h⟩
      · exact ⟨c :: a, b, by simp [h]⟩
    · rintro ⟨a, b, h⟩
      cases a with
      | nil => exact Or.inl ⟨b, by simpa using h⟩
      | cons x xs =>
        simp only [List.cons_append, List.cons.injEq] at h
        exact Or.inr ⟨xs, b, h.2⟩

theorem containsTok_reverse {pat l : Str} (h : containsTok pat l = true) :
    containsTok pat.reverse l.reverse = true := by
  rw [containsTok_iff] at h ⊢
  obtain ⟨a, b, rfl⟩ := h
  exact ⟨b.reverse, a.reverse, by simp⟩

theorem containsTok_dropWhile {p : Char} {ps : Str} (hp : isPySpace p = false) :
    ∀ (l : Str), containsTok (p :: ps) l = true →
      containsTok (p :: ps) (l.dropWhile isPySpace) = true
  | [], h => by simpa using h
  | c :: cs, h => by
    rw [List.dropWhile_cons]
    simp only [containsTok, Bool.or_eq_true] at h
    split
    · rename_i hc
      apply containsTok_dropWhile hp cs
      rcases h with h1 | h2
      · exfalso
        simp only [startsWithTok, Bool.and_eq_true, beq_iff_eq] at h1
        rw [h1.1] at hp
        rw [hp] at hc
        exact Bool.false_ne_true hc
      · exact h2
    · simp only [containsTok, Bool.or_eq_true]
      exact h

/-- A whitespace-free, non-empty pattern contained in a string is still
contained after Python `strip`. -/
theorem containsTok_pyStrip {pat l : Str} (hne : pat ≠ [])
    (hns : ∀ c ∈ pat, isPySpace c = false)
    (h : containsTok pat l = true) : containsTok pat (pyStrip l) = true := by
  obtain ⟨p, ps, rfl⟩ := List.exists_cons_of_ne_nil hne
  have h1 : containsTok (p :: ps) (l.dropWhile isPySpace) = true :=
    containsTok_dropWhile (hns p (by simp)) l h
  have h2 := containsTok_reverse h1
  obtain ⟨q, qs, hrev⟩ :
      ∃ q qs, (p :: ps).reverse = q :: qs :=
    List.exists_cons_of_ne_nil (by simp)
  rw [hrev] at h2
  have hq : isPySpace q = false := by
    apply hns
    have hmem : q ∈ (p :: ps).reverse := by
      rw [hrev]
      exact List.mem_cons_self q qs
    exact List.mem_reverse.mp hmem
  have h3 := containsTok_dropWhile hq _ h2
  rw [← hrev] at h3
  have h4 := containsTok_reverse h3
  simpa [pyStrip] using h4

theorem joinSp_cons (x : Str) : ∀ (rest : List Str),
    joinSp (x :: rest) = x ++ (rest.map (fun r => ' ' :: r)).flatten
  | [] => by simp [joinSp]
  | y :: ys => by
    rw [show joinSp (x :: y :: ys) = x ++ ' ' :: joinSp (y :: ys) from rfl]
    rw [joinSp_cons y ys]
    rfl

theorem findOpLine_eq_none : ∀ (L : List Str),
    (∀ ln ∈ L, lineHasOp (pyStrip ln) = false) → findOpLine L = none
  | [], _ => rfl
  | ln :: rest, h => by
    have h0 := h ln (List.mem_cons_self ln rest)
    unfold findOpLine
    rw [if_neg (by simp [h0])]
    exact findOpLine_eq_none rest (fun x hx => h x (List.mem_cons_of_mem ln hx))

/-! ## Claim theorems: validators -/

/-- C1: every input containing the token `DROP`, `DELETE` or `INSERT` in any
letter case, at any position, is rejected both by `validate_sql_syntax` and by
the advanced pipeline's `_is_safe_sql`. -/
theorem validator_rejects_danger_tokens (s : Str)
    (h : containsTok "DROP".data (pyUpper s) = true ∨
         containsTok "DELETE".data (pyUpper s) = true ∨
         containsTok "INSERT".data (pyUpper s) = true) :
    ( validate_sql_syntax s).1 = false ∧ adv_is_safe_sql s = false := by
  have hs : containsTok "DROP".data (pyStrip (pyUpper s)) = true ∨
      containsTok "DELETE".data (pyStrip (pyUpper s)) = true ∨
      containsTok "INSERT".data (pyStrip (pyUpper s)) = true := by
    rcases h with h | h | h
    · exact Or.inl (containsTok_pyStrip (by decide) (by decide) h)
    · exact Or.inr (Or.inl (containsTok_pyStrip (by decide) (by decide) h))
    · exact Or.inr (Or.inr (containsTok_pyStrip (by decide) (by decide) h))
  constructor
  · rcases h with h | h | h
    all_goals (unfold validate_sql_syntax; repeat' (first | rfl | split))
  · rcases hs with hs | hs | hs
    all_goals (unfold adv_is_safe_sql; repeat' (first | rfl | split))

theorem validator_rejects_danger_tokens_witness :
    ( validate_sql_syntax "drop table users".data).1 = false ∧
      adv_is_safe_sql "drop table users".data = false :=
  validator_rejects_danger_tokens _ (Or.inl (by decide))

/-- C2 (amended): the advanced pipeline's `_is_safe_sql` rejects every string
containing a semicolon; `validate_sql_syntax` implements no semicolon guard. -/
theorem adv_validator_rejects_semicolon (s : Str)
    (h : containsTok ";".data s = true) : adv_is_safe_sql s = false := by
  unfold adv_is_safe_sql
  repeat' (first | rfl | split)

theorem adv_validator_rejects_semicolon_witness :
    adv_is_safe_sql "SELECT 1; DROP TABLE t".data = false :=
  adv_validator_rejects_semicolon _ (by decide)

/-- C2 counterexample: `validate_sql_syntax` accepts a semicolon-bearing
string, so the claim that the validator rejects every semicolon-containing
input is false as stated. -/
theorem validate_sql_syntax_accepts_semicolon :
    containsTok ";".data "SELECT * FROM t;".data = true ∧
      ( validate_sql_syntax "SELECT * FROM t;".data).1 = true := by
  constructor
  · decide
  · decide

/-! ## Claim theorems: assembler -/

/-- C3: with a non-empty table list, no joins, no columns and an empty WHERE
fragment, the assembler emits exactly `SELECT * FROM <first_table>`. -/
theorem assembler_star_from_first_table (schema : Schema) (t : Str) (ts : List Str) :
    step4_assemble schema (t :: ts) [] [] [] = some ("SELECT * FROM ".data ++ t) :=
  rfl

/-- C4: each column is qualified by the first table in list order whose
snapshot column list contains it (pass-through otherwise) — the loop of
`step4_build_sql` agrees with the spec's first-match rule — and the concrete
scenario `tables=["customers"]`, `columns=["first_name","last_name"]`
assembles to `SELECT customers.first_name, customers.last_name FROM customers`. -/
theorem assembler_qualifies_columns :
    (∀ (schema : Schema) (tables : List Str) (col : Str),
      prefixColumn schema tables col = qualifySpec schema tables col) ∧
    step4_assemble
        (fun t => if t = "customers".data
          then ["id".data, "first_name".data, "last_name".data, "city".data]
          else [])
        ["customers".data] [] ["first_name".data, "last_name".data] [] =
      some "SELECT customers.first_name, customers.last_name FROM customers".data := by
  constructor
  · intro schema tables col
    induction tables with
    | nil => rfl
    | cons t ts ih =>
      rw [show prefixColumn schema (t :: ts) col =
        (if (schema t).contains col then t ++ '.' :: col
         else prefixColumn schema ts col) from rfl]
      unfold qualifySpec
      cases hc : (schema t).contains col
      · rw [if_neg (by decide),
          @List.find?_cons_of_neg _ (fun u => (schema u).contains col) t ts
            (by simp only [hc]; decide)]
        exact ih
      · rw [if_pos rfl,
          @List.find?_cons_of_pos _ (fun u => (schema u).contains col) t ts
            (by simp only [hc])]
  · decide

/-- C5: one `JOIN <to> ON <from>.<fc> = <to>.<tc>` clause per JoinPlan entry,
in order, after the FROM clause, and the concrete two-table scenario
assembles to `SELECT * FROM orders JOIN customers ON orders.customer_id =
customers.id`. -/
theorem assembler_emits_join_clauses :
    (∀ (schema : Schema) (t : Str) (ts : List Str) (joins : List JoinEdge),
      step4_assemble schema (t :: ts) joins [] [] =
        some ("SELECT * FROM ".data ++ t ++
          ((joins.map join_clause).map (fun jc => ' ' :: jc)).flatten)) ∧
    step4_assemble (fun _ => []) ["orders".data, "customers".data]
        [⟨"orders".data, "customers".data, "customer_id".data, "id".data⟩] [] [] =
      some "SELECT * FROM orders JOIN customers ON orders.customer_id = customers.id".data := by
  constructor
  · intro schema t ts joins
    show some (joinSp ("SELECT *".data :: ("FROM ".data ++ t) ::
      (joins.map join_clause ++ []))) = _
    rw [List.append_nil, joinSp_cons]
    simp only [List.map_cons, List.flatten_cons]
    rfl
  · decide

/-! ## Claim theorems: validator check ordering -/

/-- C6 counterexample: on `DROP TABLE t`, which violates both the lexical
denylist (`DROP`) and a structural rule (no `SELECT`), `validate_sql_syntax`
reports the structural diagnostic, not the lexical one — so the claimed
lexical-first ordering is false as stated. -/
theorem validator_structural_diagnostic_first :
    containsTok "DROP".data (pyUpper "DROP TABLE t".data) = true ∧
      containsTok "SELECT".data (pyUpper "DROP TABLE t".data) = false ∧
      validate_sql_syntax "DROP TABLE t".data =
        (false, "Missing required clause: SELECT".data) ∧
      ( validate_sql_syntax "DROP TABLE t".data).2 ≠
        "Potentially dangerous SQL operation detected: DROP".data := by
  refine ⟨by decide, by decide, by decide, by decide⟩

/-- C6 (amended): `validate_sql_syntax` applies its structural checks
(SELECT/FROM presence, parenthesis balance, WHERE case-consistency) before the
lexical keyword denylist, short-circuiting on first failure; so an input that
violates both a structural rule and the denylist gets one of the four
structural diagnostics. -/
theorem validator_structural_before_lexical (s : Str)
    (_hlex : containsTok "DROP".data (pyUpper s) = true ∨
            containsTok "DELETE".data (pyUpper s) = true ∨
            containsTok "TRUNCATE".data (pyUpper s) = true ∨
            containsTok "ALTER".data (pyUpper s) = true ∨
            containsTok "CREATE".data (pyUpper s) = true ∨
            containsTok "INSERT".data (pyUpper s) = true ∨
            containsTok "UPDATE".data (pyUpper s) = true)
    (hstruct : containsTok "SELECT".data (pyUpper s) = false ∨
               containsTok "FROM".data (pyUpper s) = false ∨
               s.count '(' ≠ s.count ')' ∨
               (containsTok "WHERE".data (pyUpper s) = true ∧
                containsTok "WHERE".data s = false)) :
    ( validate_sql_syntax s).1 = false ∧
      (( validate_sql_syntax s).2 = "Missing required clause: SELECT".data ∨
       ( validate_sql_syntax s).2 = "Missing required clause: FROM".data ∨
       ( validate_sql_syntax s).2 = "Mismatched parentheses".data ∨
       ( validate_sql_syntax s).2 = "Invalid WHERE clause".data) := by
  rcases hstruct with hst | hst | hst | ⟨hst1, hst2⟩
  · unfold validate_sql_syntax
    repeat' split
    all_goals refine ⟨rfl, by decide⟩
  · unfold validate_sql_syntax
    repeat' split
    all_goals refine ⟨rfl, by decide⟩
  · unfold validate_sql_syntax
    repeat' split
    all_goals refine ⟨rfl, by decide⟩
  · unfold validate_sql_syntax
    simp only [hst1, hst2, and_self, ite_true]
    repeat' split
    all_goals refine ⟨rfl, by decide⟩

theorem validator_structural_before_lexical_witness :
    ( validate_sql_syntax "delete from users".data).1 = false ∧
      (( validate_sql_syntax "delete from users".data).2 =
          "Missing required clause: SELECT".data ∨
       ( validate_sql_syntax "delete from users".data).2 =
          "Missing required clause: FROM".data ∨
       ( validate_sql_syntax "delete from users".data).2 =
          "Mismatched parentheses".data ∨
       ( validate_sql_syntax "delete from users".data).2 =
          "Invalid WHERE clause".data) :=
  validator_structural_before_lexical _ (Or.inr (Or.inl (by decide)))
    (Or.inl (by decide))

/-! ## Claim theorems: extractor fallback -/

/-- C7 counterexample: on `he said "hi"` (no regex match, no operator line,
3 tokens) the extractor does not return the trimmed input unchanged — it also
deletes the double-quote characters. -/
theorem extractor_fallback_removes_double_quotes :
    firstMatch "he said \"hi\"".data = none ∧
    (∀ ln ∈ splitlines "he said \"hi\"".data, lineHasOp (pyStrip ln) = false) ∧
    (splitWS "he said \"hi\"".data).length < 10 ∧
    extract_sql_condition "he said \"hi\"".data = "he said hi".data ∧
    extract_sql_condition "he said \"hi\"".data ≠ pyStrip "he said \"hi\"".data := by
  refine ⟨by decide, by decide, by decide, by decide, by decide⟩

/-- C7 (amended): when the regex finds no condition and no line carries a
comparison operator, a response of fewer than 10 whitespace-separated tokens
is returned stripped of surrounding whitespace and of every double-quote
character, and a response of 10 or more tokens yields the empty string. -/
theorem extractor_fallback_behavior (s : Str)
    (hre : firstMatch s = none)
    (hline : ∀ ln ∈ splitlines s, lineHasOp (pyStrip ln) = false) :
    ((splitWS s).length < 10 →
      extract_sql_condition s = (pyStrip s).filter (fun c => c ≠ '"')) ∧
    (10 ≤ (splitWS s).length → extract_sql_condition s = []) := by
  have hfind := findOpLine_eq_none (splitlines s) hline
  have he : extract_sql_condition s =
      if (splitWS s).length < 10 then (pyStrip s).filter (fun c => c ≠ '"')
      else [] := by
    unfold extract_sql_condition
    rw [hre, hfind]
  constructor
  · intro h
    rw [he, if_pos h]
  · intro h
    rw [he, if_neg (by omega)]

theorem extractor_fallback_behavior_witness :
    extract_sql_condition "show me all customers".data =
      (pyStrip "show me all customers".data).filter (fun c => c ≠ '"') :=
  (extractor_fallback_behavior _ (by decide) (by decide)).1 (by decide)

/-! ## Claim theorems: executor and pipeline error handling -/

/-- C8 counterexample: when the database fails, the simple multi-step
pipeline's `process_query` returns a success-shaped record
(`validation_passed` true, no `error` key) with empty results — not the
structured failure response the claim demands. -/
theorem exec_error_success_shaped :
    (process_query (.ok (["orders".data], [], [], "SELECT * FROM orders".data))
        (fun _ => .error "db down".data)).1.validation_passed = true ∧
    (process_query (.ok (["orders".data], [], [], "SELECT * FROM orders".data))
        (fun _ => .error "db down".data)).1.error = none ∧
    (process_query (.ok (["orders".data], [], [], "SELECT * FROM orders".data))
        (fun _ => .error "db down".data)).1.results = [] :=
  ⟨rfl, rfl, rfl⟩

/-- C8 (amended): the Executor issues each failing statement exactly once (no
retry). On execution error the advanced pipeline surfaces the error and
returns its structured failure record with empty results; the simple
multi-step pipeline's `step5_execute_query` swallows the error into an empty
row list, so its `process_query` returns a success-shaped response
(`validation_passed` true, no error) with empty results. -/
theorem executor_no_retry_failure_shape
    (db db2 : DbOracle) (e e2 q sql : Str)
    (tables : List Str) (joins : List JoinEdge) (columns : List Str)
    (hdb : db 0 = .error e)
    (hsafe : adv_is_safe_sql sql = true)
    (hset : db2 0 = .ok []) (hq : db2 1 = .error e2) :
    adv_execute_query db 0 sql = (.error e, 1) ∧
    adv_process_query q (.ok sql) db = (adv_error_response e, 1) ∧
    step5_execute_query db2 0 sql = ([], 2) ∧
    (process_query (.ok (tables, joins, columns, sql)) db2).1.results = [] ∧
    (process_query (.ok (tables, joins, columns, sql)) db2).1.validation_passed = true ∧
    (process_query (.ok (tables, joins, columns, sql)) db2).1.error = none ∧
    (process_query (.ok (tables, joins, columns, sql)) db2).2 = 2 := by
  have hadv : adv_execute_query db 0 sql = (.error e, 1) := by
    unfold adv_execute_query
    rw [hdb]
  have h5 : step5_execute_query db2 0 sql = ([], 2) := by
    unfold step5_execute_query
    rw [hset, hq]
  refine ⟨hadv, ?_, h5, ?_, rfl, rfl, ?_⟩
  · simp only [adv_process_query]
    rw [if_pos hsafe, hadv]
  · show (step5_execute_query db2 0 sql).1 = []
    rw [h5]
  · show (step5_execute_query db2 0 sql).2 = 2
    rw [h5]

theorem executor_no_retry_failure_shape_witness :
    adv_execute_query (fun _ => .error "boom".data) 0 "SELECT * FROM t".data =
      (.error "boom".data, 1) ∧
    adv_process_query "q".data (.ok "SELECT * FROM t".data)
        (fun _ => .error "boom".data) = (adv_error_response "boom".data, 1) ∧
    step5_execute_query (fun n => if n = 0 then .ok [] else .error "boom".data)
        0 "SELECT * FROM t".data = ([], 2) ∧
    (process_query (.ok (["t".data], [], [], "SELECT * FROM t".data))
        (fun n => if n = 0 then .ok [] else .error "boom".data)).1.results = [] ∧
    (process_query (.ok (["t".data], [], [], "SELECT * FROM t".data))
        (fun n => if n = 0 then .ok [] else .error "boom".data)).1.validation_passed = true ∧
    (process_query (.ok (["t".data], [], [], "SELECT * FROM t".data))
        (fun n => if n = 0 then .ok [] else .error "boom".data)).1.error = none ∧
    (process_query (.ok (["t".data], [], [], "SELECT * FROM t".data))
        (fun n => if n = 0 then .ok [] else .error "boom".data)).2 = 2 :=
  executor_no_retry_failure_shape _ _ _ _ _ _ _ _ _ rfl (by decide) rfl rfl

/-- C9 counterexample: the claim covers every error kind including execution,
but an error raised during execution (the database oracle fails on every
call) does not produce the structured failure record — the simple pipeline's
`process_query` returns `validation_passed` true, no error message, and
non-empty `tables` and `sql_query`. -/
theorem exec_error_not_failure_record :
    (process_query
        (.ok (["customers".data], [], ["first_name".data],
          "SELECT customers.first_name FROM customers".data))
        (fun _ => .error "connection refused".data)).1.validation_passed = true ∧
    (process_query
        (.ok (["customers".data], [], ["first_name".data],
          "SELECT customers.first_name FROM customers".data))
        (fun _ => .error "connection refused".data)).1.error = none ∧
    (process_query
        (.ok (["customers".data], [], ["first_name".data],
          "SELECT customers.first_name FROM customers".data))
        (fun _ => .error "connection refused".data)).1.tables = ["customers".data] ∧
    (process_query
        (.ok (["customers".data], [], ["first_name".data],
          "SELECT customers.first_name FROM customers".data))
        (fun _ => .error "connection refused".data)).1.sql_query =
      "SELECT customers.first_name FROM customers".data ∧
    (process_query
        (.ok (["customers".data], [], ["first_name".data],
          "SELECT customers.first_name FROM customers".data))
        (fun _ => .error "connection refused".data)).1.results = [] :=
  ⟨rfl, rfl, rfl, rfl, rfl⟩

/-- C9 (amended): every error raised in the pre-execution stages — table
identification, assembly, syntax validation, semantic validation (steps 1-4)
— becomes the structured failure record: empty tables, joins, columns,
sql_query and results, `validation_passed` false, the message under `error`;
execution errors are instead swallowed by the simple pipeline's Executor into
a success-shaped record. The advanced pipeline's `process_query` returns its
`_error_response` record; both model functions are total, so no exception
reaches the caller. -/
theorem process_query_error_record (e : Str) (db : DbOracle) (q : Str) :
    process_query (.error e) db =
      ({ tables := [], joins := [], columns := [], sql_query := [], results := [],
         error := some e, validation_passed := false }, 0) ∧
    adv_process_query q (.error e) db = (adv_error_response e, 0) ∧
    adv_error_response e =
      { success := false, user_question := [], target_table := [], sql_query := [],
        results := [], result_count := 0, error := some e } :=
  ⟨rfl, rfl, rfl⟩

/-- C10: every response record of the simple and advanced pipelines has
`result_count` equal to the length of `results`, and `results` empty whenever
`success` is false. -/
theorem response_count_invariant (q q2 : Str) (tid : Except Str (Option Str))
    (gen gen2 : Except Str Str) (db db2 : DbOracle) :
    ((simple_process_query q tid gen db).1.result_count =
        (simple_process_query q tid gen db).1.results.length ∧
      ((simple_process_query q tid gen db).1.success = false →
        (simple_process_query q tid gen db).1.results = [])) ∧
    ((adv_process_query q2 gen2 db2).1.result_count =
        (adv_process_query q2 gen2 db2).1.results.length ∧
      ((adv_process_query q2 gen2 db2).1.success = false →
        (adv_process_query q2 gen2 db2).1.results = [])) := by
  constructor
  · rcases tid with e | t
    · exact ⟨rfl, fun _ => rfl⟩
    · cases t with
      | none => exact ⟨rfl, fun _ => rfl⟩
      | some t =>
        rcases gen with e | sql
        · exact ⟨rfl, fun _ => rfl⟩
        · simp only [simple_process_query]
          by_cases hs : simple_is_safe_sql sql = true
          · rw [if_pos hs]
            cases hx : (simple_execute_query db 0 sql).1 with
            | error e => exact ⟨rfl, fun _ => rfl⟩
            | ok rows => exact ⟨rfl, fun h => Bool.noConfusion h⟩
          · rw [if_neg hs]
            exact ⟨rfl, fun _ => rfl⟩
  · rcases gen2 with e | sql
    · exact ⟨rfl, fun _ => rfl⟩
    · simp only [adv_process_query]
      by_cases hs : adv_is_safe_sql sql = true
      · rw [if_pos hs]
        cases hx : (adv_execute_query db2 0 sql).1 with
        | error e => exact ⟨rfl, fun _ => rfl⟩
        | ok rows => exact ⟨rfl, fun h => Bool.noConfusion h⟩
      · rw [if_neg hs]
        exact ⟨rfl, fun _ => rfl⟩

theorem response_count_invariant_witness :
    (simple_process_query "q".data (.ok none) (.ok "SELECT * FROM t".data)
        (fun _ => .ok [])).1.results = [] ∧
    (adv_process_query "q".data (.error "boom".data)
        (fun _ => .ok [])).1.results = [] :=
  ⟨(response_count_invariant "q".data "q".data (.ok none)
      (.ok "SELECT * FROM t".data) (.error "boom".data)
      (fun _ => .ok []) (fun _ => .ok [])).1.2 rfl,
   (response_count_invariant "q".data "q".data (.ok none)
      (.ok "SELECT * FROM t".data) (.error "boom".data)
      (fun _ => .ok []) (fun _ => .ok [])).2.2 rfl⟩

end SQLChatbot
